import Mathlib

/-!
Shallow embedding of the rjvm class-file reader and constant pool
(repository RedstoneWizard08/rjvm) together with proofs about the
properties stated in the specification.

Conventions of the embedding:
- machine integers are embedded as `Nat` (u8, u16, u32, usize indices) or
  `Int` (i32, i64); where wrap-around matters it is written explicitly;
- f32 and f64 payloads are embedded by their IEEE-754 bit patterns as
  `Nat`; their decimal rendering (Rust `Display`) is kept as an explicit
  renderer parameter (`FloatFmt`), since the shortest round-trip decimal
  formatting algorithm is outside the scope of this embedding;
- fallible operations return `Except`;
- Rust methods keep their source names.
-/

namespace RJVM

/-- Entry of the constant pool, from `src/reader/src/constant_pool.rs`
(`enum ConstantPoolEntry`). Index payloads (u16 in the source) are `Nat`,
i32 and i64 payloads are `Int`, f32 and f64 payloads are IEEE bit
patterns as `Nat`. -/
inductive ConstantPoolEntry where
  | Utf8 (s : String)
  | Integer (n : Int)
  | Float (bits : Nat)
  | Long (n : Int)
  | Double (bits : Nat)
  | ClassReference (idx : Nat)
  | StringReference (idx : Nat)
  | FieldReference (classIdx natIdx : Nat)
  | MethodReference (classIdx natIdx : Nat)
  | InterfaceMethodReference (classIdx natIdx : Nat)
  | NameAndTypeDescriptor (nameIdx descIdx : Nat)
  | MethodHandle (kind refIdx : Nat)
  | MethodType (descIdx : Nat)
  | DynamicInfo (bootstrapIdx natIdx : Nat)
  | InvokeDynamicInfo (bootstrapIdx natIdx : Nat)
  | ModuleInfo (nameIdx : Nat)
  | PackageInfo (nameIdx : Nat)
  deriving DecidableEq, Repr

/-- Physical slot of the pool, from `enum ConstantPoolPhysicalEntry` in
`src/reader/src/constant_pool.rs`: a live entry or the tombstone slot that
follows a Long or Double entry. -/
inductive ConstantPoolPhysicalEntry where
  | Entry (e : ConstantPoolEntry)
  | MultiByteEntryTombstone
  deriving DecidableEq, Repr

/-- The constant pool, from `struct ConstantPool` in
`src/reader/src/constant_pool.rs`: an ordered sequence of physical slots,
1-based when addressed through `get`. -/
structure ConstantPool where
  entries : List ConstantPoolPhysicalEntry
  deriving DecidableEq, Repr

/-- Mirrors `ConstantPool::new`, which returns the default (empty) pool. -/
def ConstantPool.new : ConstantPool := ⟨[]⟩

/-- Error carrying the offending index, from
`struct InvalidConstantPoolIndexError` in
`src/reader/src/constant_pool.rs`. -/
structure InvalidConstantPoolIndexError where
  index : Nat
  deriving DecidableEq, Repr

/-- Error carrying the offending method-handle kind byte, from
`struct InvalidMethodHandleKindError` in
`src/reader/src/constant_pool.rs`. -/
structure InvalidMethodHandleKindError where
  kind : Nat
  deriving DecidableEq, Repr

/-- Formatting error of the pool, from
`enum ConstantPoolFormattingError` in `src/reader/src/constant_pool.rs`. -/
inductive ConstantPoolFormattingError where
  | PoolIndex (e : InvalidConstantPoolIndexError)
  | MethodHandleKind (e : InvalidMethodHandleKindError)
  deriving DecidableEq, Repr

/-- Mirrors `ConstantPool::add`: push the entry as a live slot and, when it
is a Long or a Double, push one tombstone slot right after it. -/
def ConstantPool.add (self : ConstantPool) (entry : ConstantPoolEntry) : ConstantPool :=
  let add_tombstone :=
    match entry with
    | .Long _ | .Double _ => true
    | _ => false
  let pushed : ConstantPool := ⟨self.entries ++ [.Entry entry]⟩
  if add_tombstone then ⟨pushed.entries ++ [.MultiByteEntryTombstone]⟩ else pushed

/-- Mirrors `ConstantPool::get`: the bounds check (index nonzero and at
most the slot count) comes first; only then is the slot accessed, and a
tombstone slot yields the same invalid-index error as an out-of-range
index. -/
def ConstantPool.get (self : ConstantPool) (input_index : Nat) :
    Except InvalidConstantPoolIndexError ConstantPoolEntry :=
  if h : input_index = 0 ∨ self.entries.length < input_index then
    .error ⟨input_index⟩
  else
    match self.entries.get ⟨input_index - 1, by omega⟩ with
    | .Entry entry => .ok entry
    | .MultiByteEntryTombstone => .error ⟨input_index⟩

/-- Mirrors `ConstantPool::method_handle_kind` (the receiver is unused in
the source as well): the nine standard reference kinds map to their
canonical names, every other byte is rejected. -/
def ConstantPool.method_handle_kind (_self : ConstantPool) (kind : Nat) :
    Except InvalidMethodHandleKindError String :=
  match kind with
  | 1 => .ok "getField"
  | 2 => .ok "getStatic"
  | 3 => .ok "putField"
  | 4 => .ok "putStatic"
  | 5 => .ok "invokeVirtual"
  | 6 => .ok "invokeStatic"
  | 7 => .ok "invokeSpecial"
  | 8 => .ok "newInvokeSpecial"
  | 9 => .ok "invokeInterface"
  | _ => .error ⟨kind⟩

/-- Renderer for float payloads: `f32Text bits` and `f64Text bits` stand
for the text Rust `Display` produces for the float with the given IEEE
bit pattern. The IEEE-754 decimal formatting algorithm is kept abstract as
this parameter; every theorem below holds for an arbitrary renderer, in
particular for the canonical one. -/
structure FloatFmt where
  f32Text : Nat → String
  f64Text : Nat → String

/-- Mirrors `ConstantPool::text_of` with the recursion made explicit by a
fuel parameter: the source recurses through pool indices without bound, so
each recursive call here consumes one unit of fuel. The fuel-exhausted
branch is never reached for the pools on which the source terminates
(acyclic reference chains, whose depth is bounded by the slot count). -/
def ConstantPool.textOfFuel (self : ConstantPool) (fmt : FloatFmt) :
    Nat → Nat → Except ConstantPoolFormattingError String
  | 0, idx => .error (.PoolIndex ⟨idx⟩)
  | fuel + 1, idx =>
    match self.get idx with
    | .error e => .error (.PoolIndex e)
    | .ok (.Utf8 s) => .ok s
    | .ok (.Integer n) => .ok (toString n)
    | .ok (.Float bits) => .ok (fmt.f32Text bits)
    | .ok (.Long n) => .ok (toString n)
    | .ok (.Double bits) => .ok (fmt.f64Text bits)
    | .ok (.ClassReference n) => self.textOfFuel fmt fuel n
    | .ok (.StringReference n) => self.textOfFuel fmt fuel n
    | .ok (.FieldReference i j) =>
      match self.textOfFuel fmt fuel i with
      | .error e => .error e
      | .ok a =>
        match self.textOfFuel fmt fuel j with
        | .error e => .error e
        | .ok b => .ok (a ++ "." ++ b)
    | .ok (.MethodReference i j) =>
      match self.textOfFuel fmt fuel i with
      | .error e => .error e
      | .ok a =>
        match self.textOfFuel fmt fuel j with
        | .error e => .error e
        | .ok b => .ok (a ++ "." ++ b)
    | .ok (.InterfaceMethodReference i j) =>
      match self.textOfFuel fmt fuel i with
      | .error e => .error e
      | .ok a =>
        match self.textOfFuel fmt fuel j with
        | .error e => .error e
        | .ok b => .ok (a ++ "." ++ b)
    | .ok (.NameAndTypeDescriptor i j) =>
      match self.textOfFuel fmt fuel i with
      | .error e => .error e
      | .ok a =>
        match self.textOfFuel fmt fuel j with
        | .error e => .error e
        | .ok b => .ok (a ++ ": " ++ b)
    | .ok (.MethodHandle i j) =>
      match self.method_handle_kind i with
      | .error e => .error (.MethodHandleKind e)
      | .ok ks =>
        match self.textOfFuel fmt fuel j with
        | .error e => .error e
        | .ok t => .ok (ks ++ "(" ++ t ++ ")")
    | .ok (.MethodType i) => self.textOfFuel fmt fuel i
    | .ok (.DynamicInfo i j) =>
      match self.textOfFuel fmt fuel i with
      | .error e => .error e
      | .ok a =>
        match self.textOfFuel fmt fuel j with
        | .error e => .error e
        | .ok b => .ok (a ++ ": " ++ b)
    | .ok (.InvokeDynamicInfo i j) =>
      match self.textOfFuel fmt fuel i with
      | .error e => .error e
      | .ok a =>
        match self.textOfFuel fmt fuel j with
        | .error e => .error e
        | .ok b => .ok (a ++ ": " ++ b)
    | .ok (.ModuleInfo i) => self.textOfFuel fmt fuel i
    | .ok (.PackageInfo i) => self.textOfFuel fmt fuel i

/-- Top-level `text_of`: fuel one more than the slot count, which is
sufficient for every pool on which the unbounded source recursion
terminates, since in an acyclic reference chain each recursive step moves
to a distinct slot. -/
def ConstantPool.text_of (self : ConstantPool) (fmt : FloatFmt) (idx : Nat) :
    Except ConstantPoolFormattingError String :=
  self.textOfFuel fmt (self.entries.length + 1) idx

/-- Entries that take two physical slots, mirroring the `matches!` test in
`ConstantPool::add`: exactly Long and Double. -/
def ConstantPoolEntry.isLongOrDouble : ConstantPoolEntry → Bool
  | .Long _ | .Double _ => true
  | _ => false

/-- Live-slot test used to state the contract of `get`: the 1-based index
is within the physical slot count and the addressed slot holds a live
entry rather than a tombstone. -/
def ConstantPool.liveSlot (pool : ConstantPool) (i : Nat) : Bool :=
  decide (1 ≤ i) && decide (i ≤ pool.entries.length) &&
    match pool.entries[i - 1]? with
    | some (.Entry _) => true
    | _ => false

/-- The pool of the end-to-end scenario of C9: Utf8 "hey", Integer 1,
Long 123 and ClassReference 1, added in this order. -/
def scenarioPool : ConstantPool :=
  ((((ConstantPool.new).add (.Utf8 "hey")).add (.Integer 1)).add
    (.Long 123)).add (.ClassReference 1)

/-- Concrete pool for the C7 witness: Utf8 "hey", Utf8 "joe" and a
FieldReference pointing at both. -/
def c7Pool : ConstantPool :=
  (((ConstantPool.new).add (.Utf8 "hey")).add (.Utf8 "joe")).add
    (.FieldReference 1 2)

/-- Renderer instance used only to instantiate witnesses. -/
def fmt0 : FloatFmt := ⟨fun _ => "", fun _ => ""⟩

/-- Modelled from the spec: `ClassFileVersion` is a major and minor pair
(data model section); its source file (`class/file/version.rs` of the
reader crate) is not under `src/`. Only `major_version` is consumed by
`MethodHandle::resolve`. -/
structure ClassFileVersion where
  major : Nat
  minor : Nat
  deriving DecidableEq, Repr

/-- Accessor used by `MethodHandle::resolve`. -/
def ClassFileVersion.major_version (v : ClassFileVersion) : Nat := v.major

/-- Modelled from the spec: the vm crate error (`vm_error.rs` is not under
`src/`); `MethodHandle::resolve` uses only the validation error. -/
inductive VmError where
  | ValidationException
  deriving DecidableEq, Repr

/-- Resolved method handle, from `enum MethodHandle` in
`src/vm/src/handle.rs`. -/
inductive MethodHandle where
  | FieldRef (i j : Nat)
  | MethodRef (i j : Nat)
  | InterfaceMethodRef (i j : Nat)
  deriving DecidableEq, Repr

/-- Mirrors `MethodHandle::resolve` in `src/vm/src/handle.rs`: look the
index up in the pool (any lookup error becomes a validation error), then
dispatch on the handle kind, with the version-gated branch for kinds 6
and 7. -/
def MethodHandle.resolve (version : ClassFileVersion) (pool : ConstantPool)
    (kind : Nat) (index : Nat) : Except VmError MethodHandle :=
  match pool.get index with
  | .error _ => .error .ValidationException
  | .ok entry =>
    match kind with
    | 1 | 2 | 3 | 4 =>
      match entry with
      | .FieldReference i j => .ok (.FieldRef i j)
      | _ => .error .ValidationException
    | 5 | 8 =>
      match entry with
      | .MethodReference i j => .ok (.MethodRef i j)
      | _ => .error .ValidationException
    | 6 | 7 =>
      if version.major_version < 52 then
        match entry with
        | .MethodReference i j => .ok (.MethodRef i j)
        | _ => .error .ValidationException
      else
        match entry with
        | .MethodReference i j => .ok (.MethodRef i j)
        | .InterfaceMethodReference i j => .ok (.InterfaceMethodRef i j)
        | _ => .error .ValidationException
    | 9 =>
      match entry with
      | .InterfaceMethodReference i j => .ok (.InterfaceMethodRef i j)
      | _ => .error .ValidationException
    | _ => .error .ValidationException

/-- The body of the kinds 6 and 7 arm of `MethodHandle::resolve`, factored
out so the dispatch can be characterized for an arbitrary entry already
looked up in the pool. -/
def resolveKind67 (v : ClassFileVersion) (entry : ConstantPoolEntry) :
    Except VmError MethodHandle :=
  if v.major_version < 52 then
    match entry with
    | .MethodReference i j => .ok (.MethodRef i j)
    | _ => .error .ValidationException
  else
    match entry with
    | .MethodReference i j => .ok (.MethodRef i j)
    | .InterfaceMethodReference i j => .ok (.InterfaceMethodRef i j)
    | _ => .error .ValidationException

/-- Pool for the C2 witness: a single InterfaceMethodReference entry. -/
def c2Pool : ConstantPool := ConstantPool.new.add (.InterfaceMethodReference 1 2)

/-- Modelled from the spec: the byte-cursor error type (`BufferError` in
the buffer module `buf.rs`, which is not under `src/`); the two variants
are exactly the ones consumed by the `From` conversion in
`src/reader/src/class/reader/error.rs`. -/
inductive BufferError where
  | UnexpectedEndOfData
  | InvalidCesu8String
  deriving DecidableEq, Repr

/-- Modelled from the spec: the ByteCursor, a sequential big-endian reader
over an immutable byte buffer with a 0-based read position (the buffer
module is not under `src/`). Bytes are values below 256. -/
structure Buffer where
  data : List Nat
  position : Nat
  deriving DecidableEq, Repr

/-- A fresh cursor at position 0. -/
def Buffer.new (data : List Nat) : Buffer := ⟨data, 0⟩

/-- Read one byte and advance; fails with the end-of-data error when the
cursor is exhausted. -/
def Buffer.read_u8 (b : Buffer) : Except BufferError (Nat × Buffer) :=
  if h : b.position < b.data.length then
    .ok (b.data.get ⟨b.position, h⟩, ⟨b.data, b.position + 1⟩)
  else .error .UnexpectedEndOfData

/-- Read a big-endian u16. -/
def Buffer.read_u16 (b : Buffer) : Except BufferError (Nat × Buffer) :=
  match b.read_u8 with
  | .error e => .error e
  | .ok (hi, b1) =>
    match b1.read_u8 with
    | .error e => .error e
    | .ok (lo, b2) => .ok (hi * 256 + lo, b2)

/-- Read a big-endian u32. -/
def Buffer.read_u32 (b : Buffer) : Except BufferError (Nat × Buffer) :=
  match b.read_u16 with
  | .error e => .error e
  | .ok (hi, b1) =>
    match b1.read_u16 with
    | .error e => .error e
    | .ok (lo, b2) => .ok (hi * 65536 + lo, b2)

/-- Read a big-endian u64. -/
def Buffer.read_u64 (b : Buffer) : Except BufferError (Nat × Buffer) :=
  match b.read_u32 with
  | .error e => .error e
  | .ok (hi, b1) =>
    match b1.read_u32 with
    | .error e => .error e
    | .ok (lo, b2) => .ok (hi * 4294967296 + lo, b2)

/-- Two's-complement reinterpretation of a u32 bit pattern as i32. -/
def i32OfBits (v : Nat) : Int :=
  if v < 2 ^ 31 then (v : Int) else (v : Int) - 2 ^ 32

/-- Two's-complement reinterpretation of a u64 bit pattern as i64. -/
def i64OfBits (v : Nat) : Int :=
  if v < 2 ^ 63 then (v : Int) else (v : Int) - 2 ^ 64

/-- Read a big-endian i32. -/
def Buffer.read_i32 (b : Buffer) : Except BufferError (Int × Buffer) :=
  match b.read_u32 with
  | .error e => .error e
  | .ok (v, b1) => .ok (i32OfBits v, b1)

/-- Read a big-endian i64. -/
def Buffer.read_i64 (b : Buffer) : Except BufferError (Int × Buffer) :=
  match b.read_u64 with
  | .error e => .error e
  | .ok (v, b1) => .ok (i64OfBits v, b1)

/-- Read an f32 as its big-endian IEEE bit pattern. -/
def Buffer.read_f32 (b : Buffer) : Except BufferError (Nat × Buffer) :=
  b.read_u32

/-- Read an f64 as its big-endian IEEE bit pattern. -/
def Buffer.read_f64 (b : Buffer) : Except BufferError (Nat × Buffer) :=
  b.read_u64

/-- Read the next n bytes verbatim. -/
def Buffer.read_bytes (b : Buffer) (n : Nat) : Except BufferError (List Nat × Buffer) :=
  if b.position + n ≤ b.data.length then
    .ok ((b.data.drop b.position).take n, ⟨b.data, b.position + n⟩)
  else .error .UnexpectedEndOfData

/-- Modelled from the spec: decoding of the modified UTF-8 (CESU-8
compatible) text encoding. One-byte codes 0x01-0x7F and two- and
three-byte sequences with 0x80-0xBF continuation bytes are decoded;
anything else, a bare zero byte included, is rejected as an invalid
string. Recombination of CESU-8 surrogate pairs into supplementary
characters is not modelled, as no claim concerns supplementary text. -/
def decodeMUtf8 : List Nat → Except BufferError (List Char)
  | [] => .ok []
  | b :: rest =>
    if 1 ≤ b ∧ b ≤ 0x7F then
      match decodeMUtf8 rest with
      | .error e => .error e
      | .ok cs => .ok (Char.ofNat b :: cs)
    else if 0xC0 ≤ b ∧ b ≤ 0xDF then
      match rest with
      | b2 :: rest2 =>
        if 0x80 ≤ b2 ∧ b2 ≤ 0xBF then
          match decodeMUtf8 rest2 with
          | .error e => .error e
          | .ok cs => .ok (Char.ofNat ((b - 0xC0) * 64 + (b2 - 0x80)) :: cs)
        else .error .InvalidCesu8String
      | [] => .error .InvalidCesu8String
    else if 0xE0 ≤ b ∧ b ≤ 0xEF then
      match rest with
      | b2 :: b3 :: rest2 =>
        if (0x80 ≤ b2 ∧ b2 ≤ 0xBF) ∧ (0x80 ≤ b3 ∧ b3 ≤ 0xBF) then
          match decodeMUtf8 rest2 with
          | .error e => .error e
          | .ok cs =>
            .ok (Char.ofNat ((b - 0xE0) * 4096 + (b2 - 0x80) * 64 + (b3 - 0x80)) :: cs)
        else .error .InvalidCesu8String
      | _ => .error .InvalidCesu8String
    else .error .InvalidCesu8String

/-- Read and decode a modified UTF-8 string spanning exactly len bytes. -/
def Buffer.read_utf8 (b : Buffer) (len : Nat) : Except BufferError (String × Buffer) :=
  if b.position + len ≤ b.data.length then
    match decodeMUtf8 ((b.data.drop b.position).take len) with
    | .error e => .error e
    | .ok cs => .ok (String.mk cs, ⟨b.data, b.position + len⟩)
  else .error .UnexpectedEndOfData

/-- The class-reader failure taxonomy, from `enum ClassReaderError` in
`src/reader/src/class/reader/error.rs`. The src crate has its own (absent)
error module used by `class_reader.rs`; it is identified with this present
one, whose variants cover every construction the parser performs. -/
inductive ClassReaderError where
  | InvalidClassData (details : String) (source : Option ConstantPoolFormattingError)
  | InvalidClassDataIndex (details : String) (source : Option InvalidConstantPoolIndexError)
  | UnsupportedVersion (major minor : Nat)
  | InvalidTypeDescriptor (descriptor : String)
  | InvalidMethodKind (kind : Nat)
  deriving DecidableEq, Repr

/-- Mirrors `ClassReaderError::invalid_class_data`. -/
def ClassReaderError.invalid_class_data (message : String) : ClassReaderError :=
  .InvalidClassData message none

/-- Display text of an invalid-index error, from the error attribute on
`InvalidConstantPoolIndexError`. -/
def InvalidConstantPoolIndexError.message (e : InvalidConstantPoolIndexError) : String :=
  "invalid constant pool index: " ++ toString e.index

/-- Display text of an invalid-kind error, from the error attribute on
`InvalidMethodHandleKindError`. -/
def InvalidMethodHandleKindError.message (e : InvalidMethodHandleKindError) : String :=
  "invalid method handle kind: " ++ toString e.kind

/-- Display text of a formatting error; both variants are transparent. -/
def ConstantPoolFormattingError.message : ConstantPoolFormattingError → String
  | .PoolIndex e => e.message
  | .MethodHandleKind e => e.message

/-- Mirrors the `From` conversion of a formatting error in
`src/reader/src/class/reader/error.rs`. -/
def ClassReaderError.fromFormattingError (err : ConstantPoolFormattingError) :
    ClassReaderError :=
  .InvalidClassData err.message (some err)

/-- Mirrors the `From` conversion of an invalid-index error in
`src/reader/src/class/reader/error.rs`. -/
def ClassReaderError.fromPoolIndexError (err : InvalidConstantPoolIndexError) :
    ClassReaderError :=
  .InvalidClassDataIndex err.message (some err)

/-- Mirrors the `From` conversion of a buffer error in
`src/reader/src/class/reader/error.rs`: both cursor failures collapse into
`InvalidClassData` with a fixed message; the taxonomy has no end-of-data
variant of its own. -/
def ClassReaderError.fromBufferError : BufferError → ClassReaderError
  | .UnexpectedEndOfData => .invalid_class_data "unexpected end of class file"
  | .InvalidCesu8String => .invalid_class_data "invalid cesu8 string"

/-- Uppercase hexadecimal rendering with no leading zeros, as Rust
produces for the uppercase-hex format specifier in the unknown-tag error
message. -/
def hexUpper (n : Nat) : String := String.mk ((Nat.toDigits 16 n).map Char.toUpper)

/-- Mirrors `ClassFileReader::read_utf8_constant`: u16 length prefix, then
that many bytes of modified UTF-8. -/
def read_utf8_constant (buffer : Buffer) :
    Except ClassReaderError (ConstantPoolEntry × Buffer) :=
  match buffer.read_u16 with
  | .error e => .error (ClassReaderError.fromBufferError e)
  | .ok (len, b1) =>
    match b1.read_utf8 len with
    | .error e => .error (ClassReaderError.fromBufferError e)
    | .ok (s, b2) => .ok (.Utf8 s, b2)

/-- Mirrors `ClassFileReader::read_int_constant`. -/
def read_int_constant (buffer : Buffer) :
    Except ClassReaderError (ConstantPoolEntry × Buffer) :=
  match buffer.read_i32 with
  | .error e => .error (ClassReaderError.fromBufferError e)
  | .ok (n, b1) => .ok (.Integer n, b1)

/-- Mirrors `ClassFileReader::read_float_constant`. -/
def read_float_constant (buffer : Buffer) :
    Except ClassReaderError (ConstantPoolEntry × Buffer) :=
  match buffer.read_f32 with
  | .error e => .error (ClassReaderError.fromBufferError e)
  | .ok (bits, b1) => .ok (.Float bits, b1)

/-- Mirrors `ClassFileReader::read_long_constant`. -/
def read_long_constant (buffer : Buffer) :
    Except ClassReaderError (ConstantPoolEntry × Buffer) :=
  match buffer.read_i64 with
  | .error e => .error (ClassReaderError.fromBufferError e)
  | .ok (n, b1) => .ok (.Long n, b1)

/-- Mirrors `ClassFileReader::read_double_constant`. -/
def read_double_constant (buffer : Buffer) :
    Except ClassReaderError (ConstantPoolEntry × Buffer) :=
  match buffer.read_f64 with
  | .error e => .error (ClassReaderError.fromBufferError e)
  | .ok (bits, b1) => .ok (.Double bits, b1)

/-- Mirrors `ClassFileReader::read_class_reference_constant`. -/
def read_class_reference_constant (buffer : Buffer) :
    Except ClassReaderError (ConstantPoolEntry × Buffer) :=
  match buffer.read_u16 with
  | .error e => .error (ClassReaderError.fromBufferError e)
  | .ok (fqn_string_index, b1) => .ok (.ClassReference fqn_string_index, b1)

/-- Mirrors `ClassFileReader::read_string_reference_constant`. -/
def read_string_reference_constant (buffer : Buffer) :
    Except ClassReaderError (ConstantPoolEntry × Buffer) :=
  match buffer.read_u16 with
  | .error e => .error (ClassReaderError.fromBufferError e)
  | .ok (string_index, b1) => .ok (.StringReference string_index, b1)

/-- Mirrors `ClassFileReader::read_field_reference_constant`. -/
def read_field_reference_constant (buffer : Buffer) :
    Except ClassReaderError (ConstantPoolEntry × Buffer) :=
  match buffer.read_u16 with
  | .error e => .error (ClassReaderError.fromBufferError e)
  | .ok (class_reference, b1) =>
    match b1.read_u16 with
    | .error e => .error (ClassReaderError.fromBufferError e)
    | .ok (name_and_type, b2) => .ok (.FieldReference class_reference name_and_type, b2)

/-- Mirrors `ClassFileReader::read_method_reference_constant`. -/
def read_method_reference_constant (buffer : Buffer) :
    Except ClassReaderError (ConstantPoolEntry × Buffer) :=
  match buffer.read_u16 with
  | .error e => .error (ClassReaderError.fromBufferError e)
  | .ok (class_reference, b1) =>
    match b1.read_u16 with
    | .error e => .error (ClassReaderError.fromBufferError e)
    | .ok (name_and_type, b2) => .ok (.MethodReference class_reference name_and_type, b2)

/-- Mirrors `ClassFileReader::read_interface_method_reference_constant`. -/
def read_interface_method_reference_constant (buffer : Buffer) :
    Except ClassReaderError (ConstantPoolEntry × Buffer) :=
  match buffer.read_u16 with
  | .error e => .error (ClassReaderError.fromBufferError e)
  | .ok (class_reference, b1) =>
    match b1.read_u16 with
    | .error e => .error (ClassReaderError.fromBufferError e)
    | .ok (name_and_type, b2) =>
      .ok (.InterfaceMethodReference class_reference name_and_type, b2)

/-- Mirrors `ClassFileReader::read_name_and_type_constant`. -/
def read_name_and_type_constant (buffer : Buffer) :
    Except ClassReaderError (ConstantPoolEntry × Buffer) :=
  match buffer.read_u16 with
  | .error e => .error (ClassReaderError.fromBufferError e)
  | .ok (name, b1) =>
    match b1.read_u16 with
    | .error e => .error (ClassReaderError.fromBufferError e)
    | .ok (type_descriptor, b2) => .ok (.NameAndTypeDescriptor name type_descriptor, b2)

/-- The tag dispatch of the while loop of
`ClassFileReader::read_constants` in `src/src/class_reader.rs`: each
recognized tag byte selects its fixed-shape reader; an unrecognized tag
yields the unknown-constant-type error naming the tag in uppercase hex. -/
def read_constant_dispatch (tag : Nat) (b1 : Buffer) :
    Except ClassReaderError (ConstantPoolEntry × Buffer) :=
  match tag with
  | 1 => read_utf8_constant b1
  | 3 => read_int_constant b1
  | 4 => read_float_constant b1
  | 5 => read_long_constant b1
  | 6 => read_double_constant b1
  | 7 => read_class_reference_constant b1
  | 8 => read_string_reference_constant b1
  | 9 => read_field_reference_constant b1
  | 10 => read_method_reference_constant b1
  | 11 => read_interface_method_reference_constant b1
  | 12 => read_name_and_type_constant b1
  | _ => .error (.InvalidClassData ("Unknown constant type: 0x" ++ hexUpper tag) none)

/-- How far the logical loop counter advances for a tag: the Long and
Double arms of the source perform one extra increment for the tombstone
slot. -/
def tag_width (tag : Nat) : Nat := if tag = 5 ∨ tag = 6 then 2 else 1

/-- The while loop of `ClassFileReader::read_constants`, with the
recursion driven by structural fuel (each iteration consumes one unit;
the loop makes at most `constants_count - i` iterations since the counter
grows by at least one per step, so the wrapper below supplies exactly
that much fuel). When the counter reaches the count the loop stops and
returns the accumulated pool and cursor. -/
def read_constants_go (constants_count : Nat) :
    Nat → Buffer → ConstantPool → Nat →
      Except ClassReaderError (ConstantPool × Buffer)
  | 0, buffer, constants, _ => .ok (constants, buffer)
  | fuel + 1, buffer, constants, i =>
    if i < constants_count then
      match buffer.read_u8 with
      | .error e => .error (ClassReaderError.fromBufferError e)
      | .ok (tag, b1) =>
        match read_constant_dispatch tag b1 with
        | .error e => .error e
        | .ok (constant, b2) =>
          read_constants_go constants_count fuel b2 (constants.add constant)
            (i + tag_width tag)
    else .ok (constants, buffer)

/-- The source loop, at counter i out of constants_count. -/
def read_constants_loop (buffer : Buffer) (constants : ConstantPool)
    (i constants_count : Nat) : Except ClassReaderError (ConstantPool × Buffer) :=
  read_constants_go constants_count (constants_count - i) buffer constants i

/-- Mirrors `ClassFileReader::read_constants`: read the u16 entry count,
subtract one in wrapping u16 arithmetic (the format counts a phantom slot
0), then run the tag-dispatch loop. -/
def read_constants (buffer : Buffer) (constants : ConstantPool) :
    Except ClassReaderError (ConstantPool × Buffer) :=
  match buffer.read_u16 with
  | .error e => .error (ClassReaderError.fromBufferError e)
  | .ok (c, b1) => read_constants_loop b1 constants 0 ((c + 65535) % 65536)

/-- Modelled from the spec: the known class-level access-flag bits (the
bitflags definitions are not under `src/`); the mask is the JVM-standard
set exercised by the repository tests: PUBLIC, FINAL, SUPER, INTERFACE,
ABSTRACT, SYNTHETIC, ANNOTATION, ENUM. -/
def classAccessFlagsMask : Nat :=
  0x0001 ||| 0x0010 ||| 0x0020 ||| 0x0200 ||| 0x0400 ||| 0x1000 ||| 0x2000 ||| 0x4000

/-- Bitflags from_bits: accepts exactly the values all of whose set bits
lie in the known mask. -/
def classAccessFlagsFromBits (num : Nat) : Option Nat :=
  if num &&& classAccessFlagsMask = num then some num else none

/-- Modelled from the spec: the known field-level access-flag bits:
PUBLIC, PRIVATE, PROTECTED, STATIC, FINAL, VOLATILE, TRANSIENT,
SYNTHETIC, ENUM. -/
def fieldFlagsMask : Nat :=
  0x0001 ||| 0x0002 ||| 0x0004 ||| 0x0008 ||| 0x0010 ||| 0x0040 ||| 0x0080 |||
    0x1000 ||| 0x4000

/-- Bitflags from_bits for field flags. -/
def fieldFlagsFromBits (num : Nat) : Option Nat :=
  if num &&& fieldFlagsMask = num then some num else none

/-- Modelled from the spec: the known method-level access-flag bits:
PUBLIC, PRIVATE, PROTECTED, STATIC, FINAL, SYNCHRONIZED, BRIDGE, VARARGS,
NATIVE, ABSTRACT, STRICT, SYNTHETIC. -/
def methodFlagsMask : Nat :=
  0x0001 ||| 0x0002 ||| 0x0004 ||| 0x0008 ||| 0x0010 ||| 0x0020 ||| 0x0040 |||
    0x0080 ||| 0x0100 ||| 0x0400 ||| 0x0800 ||| 0x1000

/-- Bitflags from_bits for method flags. -/
def methodFlagsFromBits (num : Nat) : Option Nat :=
  if num &&& methodFlagsMask = num then some num else none

/-- Field constant value, from the src crate (its `class_file_field.rs` is
not under `src/`): the variants constructed by `extract_constant_value` in
`src/src/class_reader.rs`. -/
inductive FieldConstantValue where
  | String (s : String)
  | Int (n : Int)
  | Float (bits : Nat)
  | Long (n : Int)
  | Double (bits : Nat)
  deriving DecidableEq, Repr

/-- Raw attribute: name plus opaque payload bytes, from the src crate
attribute model as populated by `read_raw_attribute`. -/
structure Attribute where
  name : String
  info : List Nat
  deriving DecidableEq, Repr

/-- Field record, from the src crate field model as populated by
`read_field`; flags are the validated bitset value. -/
structure ClassFileField where
  flags : Nat
  name : String
  type_descriptor : String
  constant_value : Option FieldConstantValue
  deriving DecidableEq, Repr

/-- Method record, from the src crate method model as populated by
`read_method`. -/
structure ClassFileMethod where
  flags : Nat
  name : String
  type_descriptor : String
  attributes : List Attribute
  deriving DecidableEq, Repr

/-- The src crate `ClassFile` (its `class_file.rs` is not under `src/`),
modelled from its uses in `src/src/class_reader.rs` and the integration
tests: `superclass` is a plain string (the tests compare it directly with
a string literal) and the parser stores the empty string when the
superclass index is 0. -/
structure ClassFile where
  version : ClassFileVersion
  constants : ConstantPool
  flags : Nat
  name : String
  superclass : String
  interfaces : List String
  fields : List ClassFileField
  methods : List ClassFileMethod
  deriving Repr

/-- Mirrors `ClassFileReader::check_magic_number`: the first four bytes
must be the fixed magic constant. -/
def check_magic_number (buffer : Buffer) : Except ClassReaderError Buffer :=
  match buffer.read_u32 with
  | .ok (magic, b1) =>
    if magic = 0xCAFEBABE then .ok b1
    else .error (.InvalidClassData "invalid magic number" none)
  | .error e => .error (ClassReaderError.fromBufferError e)

/-- Mirrors `ClassFileReader::read_version`: minor u16 then major u16,
handed to the version constructor. The constructor itself
(`ClassFileVersion::from`, whose source file is not under `src/`) is the
parameter `versionFrom`, modelled from the spec: it maps the pair to a
known major-version family and rejects unsupported majors. -/
def read_version (versionFrom : Nat → Nat → Except ClassReaderError ClassFileVersion)
    (buffer : Buffer) : Except ClassReaderError (ClassFileVersion × Buffer) :=
  match buffer.read_u16 with
  | .error e => .error (ClassReaderError.fromBufferError e)
  | .ok (minor_version, b1) =>
    match b1.read_u16 with
    | .error e => .error (ClassReaderError.fromBufferError e)
    | .ok (major_version, b2) =>
      match versionFrom major_version minor_version with
      | .error e => .error e
      | .ok v => .ok (v, b2)

/-- Mirrors `ClassFileReader::read_access_flags`: a u16 that must decode
to known class-level bits. -/
def read_access_flags (buffer : Buffer) : Except ClassReaderError (Nat × Buffer) :=
  match buffer.read_u16 with
  | .error e => .error (ClassReaderError.fromBufferError e)
  | .ok (num, b1) =>
    match classAccessFlagsFromBits num with
    | some flags => .ok (flags, b1)
    | none => .error (.InvalidClassData ("invalid class flags: " ++ toString num) none)

/-- Mirrors `ClassFileReader::read_string_reference`: resolve the index
through `text_of`, converting the formatting error. -/
def read_string_reference (fmt : FloatFmt) (constants : ConstantPool) (index : Nat) :
    Except ClassReaderError String :=
  match constants.text_of fmt index with
  | .ok s => .ok s
  | .error e => .error (ClassReaderError.fromFormattingError e)

/-- Mirrors `ClassFileReader::read_class_reference`: read a u16
constant-pool index; index 0 yields the empty string, any other index is
resolved through `text_of`. -/
def read_class_reference (fmt : FloatFmt) (constants : ConstantPool) (buffer : Buffer) :
    Except ClassReaderError (String × Buffer) :=
  match buffer.read_u16 with
  | .error e => .error (ClassReaderError.fromBufferError e)
  | .ok (super_constant_idx, b1) =>
    if super_constant_idx = 0 then .ok ("", b1)
    else
      match read_string_reference fmt constants super_constant_idx with
      | .error e => .error e
      | .ok s => .ok (s, b1)

/-- The iteration of `ClassFileReader::read_interfaces`: read the given
number of class references in order. -/
def read_class_references_loop (fmt : FloatFmt) (constants : ConstantPool) :
    Nat → Buffer → Except ClassReaderError (List String × Buffer)
  | 0, buffer => .ok ([], buffer)
  | n + 1, buffer =>
    match read_class_reference fmt constants buffer with
    | .error e => .error e
    | .ok (s, b1) =>
      match read_class_references_loop fmt constants n b1 with
      | .error e => .error e
      | .ok (rest, b2) => .ok (s :: rest, b2)

/-- Mirrors `ClassFileReader::read_interfaces`: u16 count then that many
class references, order preserved. -/
def read_interfaces (fmt : FloatFmt) (constants : ConstantPool) (buffer : Buffer) :
    Except ClassReaderError (List String × Buffer) :=
  match buffer.read_u16 with
  | .error e => .error (ClassReaderError.fromBufferError e)
  | .ok (interfaces_count, b1) =>
    read_class_references_loop fmt constants interfaces_count b1

/-- Mirrors `ClassFileReader::read_raw_attribute`: name index resolved to
text, u32 length, then that many raw payload bytes. -/
def read_raw_attribute (fmt : FloatFmt) (constants : ConstantPool) (buffer : Buffer) :
    Except ClassReaderError (Attribute × Buffer) :=
  match buffer.read_u16 with
  | .error e => .error (ClassReaderError.fromBufferError e)
  | .ok (name_constant_index, b1) =>
    match read_string_reference fmt constants name_constant_index with
    | .error e => .error e
    | .ok name =>
      match b1.read_u32 with
      | .error e => .error (ClassReaderError.fromBufferError e)
      | .ok (len, b2) =>
        match b2.read_bytes len with
        | .error e => .error (ClassReaderError.fromBufferError e)
        | .ok (bytes, b3) => .ok (⟨name, bytes⟩, b3)

/-- The iteration of `ClassFileReader::read_raw_attributes`. -/
def read_raw_attributes_loop (fmt : FloatFmt) (constants : ConstantPool) :
    Nat → Buffer → Except ClassReaderError (List Attribute × Buffer)
  | 0, buffer => .ok ([], buffer)
  | n + 1, buffer =>
    match read_raw_attribute fmt constants buffer with
    | .error e => .error e
    | .ok (attr, b1) =>
      match read_raw_attributes_loop fmt constants n b1 with
      | .error e => .error e
      | .ok (rest, b2) => .ok (attr :: rest, b2)

/-- Mirrors `ClassFileReader::read_raw_attributes`: u16 count then that
many attributes. -/
def read_raw_attributes (fmt : FloatFmt) (constants : ConstantPool) (buffer : Buffer) :
    Except ClassReaderError (List Attribute × Buffer) :=
  match buffer.read_u16 with
  | .error e => .error (ClassReaderError.fromBufferError e)
  | .ok (attributes_count, b1) =>
    read_raw_attributes_loop fmt constants attributes_count b1

/-- Mirrors `ClassFileReader::extract_constant_value`: the first attribute
named ConstantValue is interpreted; its payload must be exactly two bytes
forming a big-endian constant-pool index, and the referenced constant
selects the typed value, any other entry kind being invalid class data.
The Rust message interpolates the Debug rendering of the entry; the
embedding uses the Repr rendering, whose exact text no theorem relies
on. -/
def extract_constant_value (fmt : FloatFmt) (constants : ConstantPool)
    (raw_attributes : List Attribute) :
    Except ClassReaderError (Option FieldConstantValue) :=
  match raw_attributes.filter (fun attr => attr.name == "ConstantValue") with
  | [] => .ok none
  | attr :: _ =>
    match attr.info with
    | [hi, lo] =>
      match constants.get (hi * 256 + lo) with
      | .error e => .error (ClassReaderError.fromPoolIndexError e)
      | .ok (.StringReference v) =>
        match read_string_reference fmt constants v with
        | .error e => .error e
        | .ok referred_string => .ok (some (.String referred_string))
      | .ok (.Integer v) => .ok (some (.Int v))
      | .ok (.Float v) => .ok (some (.Float v))
      | .ok (.Long v) => .ok (some (.Long v))
      | .ok (.Double v) => .ok (some (.Double v))
      | .ok v =>
        .error (.InvalidClassData ("invalid type for ConstantValue: " ++ reprStr v) none)
    | _ => .error (.InvalidClassData "invalid attribute of type ConstantValue" none)

/-- Mirrors `ClassFileReader::read_field_flags`. -/
def read_field_flags (buffer : Buffer) : Except ClassReaderError (Nat × Buffer) :=
  match buffer.read_u16 with
  | .error e => .error (ClassReaderError.fromBufferError e)
  | .ok (field_flags_bits, b1) =>
    match fieldFlagsFromBits field_flags_bits with
    | some flags => .ok (flags, b1)
    | none =>
      .error (.InvalidClassData ("invalid field flags: " ++ toString field_flags_bits) none)

/-- Mirrors `ClassFileReader::read_field`: flags, name, descriptor, raw
attributes, and the extracted constant value. -/
def read_field (fmt : FloatFmt) (constants : ConstantPool) (buffer : Buffer) :
    Except ClassReaderError (ClassFileField × Buffer) :=
  match read_field_flags buffer with
  | .error e => .error e
  | .ok (flags, b1) =>
    match b1.read_u16 with
    | .error e => .error (ClassReaderError.fromBufferError e)
    | .ok (name_constant_index, b2) =>
      match read_string_reference fmt constants name_constant_index with
      | .error e => .error e
      | .ok name =>
        match b2.read_u16 with
        | .error e => .error (ClassReaderError.fromBufferError e)
        | .ok (type_constant_index, b3) =>
          match read_string_reference fmt constants type_constant_index with
          | .error e => .error e
          | .ok type_descriptor =>
            match read_raw_attributes fmt constants b3 with
            | .error e => .error e
            | .ok (raw_attributes, b4) =>
              match extract_constant_value fmt constants raw_attributes with
              | .error e => .error e
              | .ok constant_value =>
                .ok (⟨flags, name, type_descriptor, constant_value⟩, b4)

/-- The iteration of `ClassFileReader::read_fields`. -/
def read_fields_loop (fmt : FloatFmt) (constants : ConstantPool) :
    Nat → Buffer → Except ClassReaderError (List ClassFileField × Buffer)
  | 0, buffer => .ok ([], buffer)
  | n + 1, buffer =>
    match read_field fmt constants buffer with
    | .error e => .error e
    | .ok (f, b1) =>
      match read_fields_loop fmt constants n b1 with
      | .error e => .error e
      | .ok (rest, b2) => .ok (f :: rest, b2)

/-- Mirrors `ClassFileReader::read_fields`: u16 count then that many field
records, order preserved. -/
def read_fields (fmt : FloatFmt) (constants : ConstantPool) (buffer : Buffer) :
    Except ClassReaderError (List ClassFileField × Buffer) :=
  match buffer.read_u16 with
  | .error e => .error (ClassReaderError.fromBufferError e)
  | .ok (fields_count, b1) => read_fields_loop fmt constants fields_count b1

/-- Mirrors `ClassFileReader::read_method_flags`. -/
def read_method_flags (buffer : Buffer) : Except ClassReaderError (Nat × Buffer) :=
  match buffer.read_u16 with
  | .error e => .error (ClassReaderError.fromBufferError e)
  | .ok (method_flags_bits, b1) =>
    match methodFlagsFromBits method_flags_bits with
    | some flags => .ok (flags, b1)
    | none =>
      .error
        (.InvalidClassData ("invalid method flags: " ++ toString method_flags_bits) none)

/-- Mirrors `ClassFileReader::read_method`: flags, name, descriptor and
the raw attribute list kept uninterpreted. -/
def read_method (fmt : FloatFmt) (constants : ConstantPool) (buffer : Buffer) :
    Except ClassReaderError (ClassFileMethod × Buffer) :=
  match read_method_flags buffer with
  | .error e => .error e
  | .ok (flags, b1) =>
    match b1.read_u16 with
    | .error e => .error (ClassReaderError.fromBufferError e)
    | .ok (name_constant_index, b2) =>
      match read_string_reference fmt constants name_constant_index with
      | .error e => .error e
      | .ok name =>
        match b2.read_u16 with
        | .error e => .error (ClassReaderError.fromBufferError e)
        | .ok (type_constant_index, b3) =>
          match read_string_reference fmt constants type_constant_index with
          | .error e => .error e
          | .ok type_descriptor =>
            match read_raw_attributes fmt constants b3 with
            | .error e => .error e
            | .ok (attributes, b4) =>
              .ok (⟨flags, name, type_descriptor, attributes⟩, b4)

/-- The iteration of `ClassFileReader::read_methods`. -/
def read_methods_loop (fmt : FloatFmt) (constants : ConstantPool) :
    Nat → Buffer → Except ClassReaderError (List ClassFileMethod × Buffer)
  | 0, buffer => .ok ([], buffer)
  | n + 1, buffer =>
    match read_method fmt constants buffer with
    | .error e => .error e
    | .ok (m, b1) =>
      match read_methods_loop fmt constants n b1 with
      | .error e => .error e
      | .ok (rest, b2) => .ok (m :: rest, b2)

/-- Mirrors `ClassFileReader::read_methods`: u16 count then that many
method records, order preserved. -/
def read_methods (fmt : FloatFmt) (constants : ConstantPool) (buffer : Buffer) :
    Except ClassReaderError (List ClassFileMethod × Buffer) :=
  match buffer.read_u16 with
  | .error e => .error (ClassReaderError.fromBufferError e)
  | .ok (methods_count, b1) => read_methods_loop fmt constants methods_count b1

/-- Mirrors `ClassFileReader::read` driven by `read_buffer` in
`src/src/class_reader.rs`: magic, version, constant pool, access flags,
this-class, super-class, interfaces, fields, methods, in this order,
aborting on the first error. -/
def classFileReaderRead (fmt : FloatFmt)
    (versionFrom : Nat → Nat → Except ClassReaderError ClassFileVersion)
    (data : List Nat) : Except ClassReaderError ClassFile :=
  match check_magic_number (Buffer.new data) with
  | .error e => .error e
  | .ok b1 =>
    match read_version versionFrom b1 with
    | .error e => .error e
    | .ok (version, b2) =>
      match read_constants b2 ConstantPool.new with
      | .error e => .error e
      | .ok (constants, b3) =>
        match read_access_flags b3 with
        | .error e => .error e
        | .ok (flags, b4) =>
          match read_class_reference fmt constants b4 with
          | .error e => .error e
          | .ok (name, b5) =>
            match read_class_reference fmt constants b5 with
            | .error e => .error e
            | .ok (superclass, b6) =>
              match read_interfaces fmt constants b6 with
              | .error e => .error e
              | .ok (interfaces, b7) =>
                match read_fields fmt constants b7 with
                | .error e => .error e
                | .ok (fields, b8) =>
                  match read_methods fmt constants b8 with
                  | .error e => .error e
                  | .ok (methods, _) =>
                    .ok
                      { version := version, constants := constants, flags := flags,
                        name := name, superclass := superclass,
                        interfaces := interfaces, fields := fields,
                        methods := methods }

/-- Version constructor instance used to instantiate parser theorems: it
accepts every major and minor pair. -/
def vf0 : Nat → Nat → Except ClassReaderError ClassFileVersion :=
  fun major minor => .ok ⟨major, minor⟩

/-- Bytes of a minimal class with superclass index 0: magic, version
52.0, two constants (Utf8 "A" and a ClassReference to it), flags
PUBLIC and SUPER, this-class index 2, superclass index 0, and empty
interface, field and method lists. -/
def noSuperclassBytes : List Nat :=
  [0xCA, 0xFE, 0xBA, 0xBE, 0, 0, 0, 52, 0, 3,
   1, 0, 1, 65, 7, 0, 1,
   0, 0x21, 0, 2, 0, 0, 0, 0, 0, 0, 0, 0]

theorem ConstantPool.add_entries (pool : ConstantPool) (entry : ConstantPoolEntry) :
    (pool.add entry).entries =
      if entry.isLongOrDouble then
        pool.entries ++ [.Entry entry, .MultiByteEntryTombstone]
      else pool.entries ++ [.Entry entry] := by
  cases entry <;> simp [ConstantPool.add, ConstantPoolEntry.isLongOrDouble]

theorem ConstantPool.get_ok_iff (pool : ConstantPool) (i : Nat) (e : ConstantPoolEntry) :
    pool.get i = .ok e ↔ 1 ≤ i ∧ pool.entries[i - 1]? = some (.Entry e) := by
  unfold ConstantPool.get
  split
  · rename_i h
    constructor
    · intro hc; cases hc
    · rintro ⟨h1, h2⟩
      rcases h with rfl | h
      · omega
      · rw [List.getElem?_eq_none (by omega)] at h2; cases h2
  · rename_i h
    have hlt : i - 1 < pool.entries.length := by omega
    rw [List.get_eq_getElem, List.getElem?_eq_getElem hlt]
    cases hE : pool.entries[i - 1] with
    | Entry e₀ => simp [hE]; omega
    | MultiByteEntryTombstone => simp [hE]

theorem ConstantPool.get_ok_or_error (pool : ConstantPool) (i : Nat) :
    (∃ e, pool.get i = .ok e) ∨ pool.get i = .error ⟨i⟩ := by
  unfold ConstantPool.get
  split
  · exact Or.inr rfl
  · split
    · exact Or.inl ⟨_, rfl⟩
    · exact Or.inr rfl

theorem ConstantPool.get_error_of_not_ok (pool : ConstantPool) (i : Nat)
    (h : ¬ ∃ e, pool.get i = .ok e) : pool.get i = .error ⟨i⟩ := by
  rcases pool.get_ok_or_error i with he | he
  · exact absurd he h
  · exact he

theorem ConstantPool.get_ok_bounds {pool : ConstantPool} {i : Nat} {e : ConstantPoolEntry}
    (h : pool.get i = .ok e) : 1 ≤ i ∧ i ≤ pool.entries.length := by
  rw [ConstantPool.get_ok_iff] at h
  obtain ⟨h1, h2⟩ := h
  have h3 : i - 1 < pool.entries.length := by
    by_contra hge
    rw [List.getElem?_eq_none (by omega)] at h2
    cases h2
  omega

/-- C3: adding a Long or Double entry appends exactly two physical slots
(the live entry followed by one tombstone) while any other entry appends
exactly one; afterwards `get` on the tombstone index fails with the
invalid-index error and `get` on the index of the next entry subsequently
added returns that entry. -/
theorem c3_add_slot_widths (pool : ConstantPool) (entry next : ConstantPoolEntry) :
    (entry.isLongOrDouble = true →
      (pool.add entry).entries.length = pool.entries.length + 2
      ∧ (pool.add entry).get (pool.entries.length + 1) = .ok entry
      ∧ ((pool.add entry).add next).get (pool.entries.length + 2)
          = .error ⟨pool.entries.length + 2⟩
      ∧ ((pool.add entry).add next).get (pool.entries.length + 3) = .ok next)
    ∧ (entry.isLongOrDouble = false →
      (pool.add entry).entries.length = pool.entries.length + 1
      ∧ (pool.add entry).get (pool.entries.length + 1) = .ok entry
      ∧ ((pool.add entry).add next).get (pool.entries.length + 2) = .ok next) := by
  constructor
  · intro hld
    have h1 : (pool.add entry).entries
        = pool.entries ++ [.Entry entry, .MultiByteEntryTombstone] := by
      rw [ConstantPool.add_entries, if_pos hld]
    have h2 : ((pool.add entry).add next).entries
        = (pool.entries ++ [.Entry entry, .MultiByteEntryTombstone])
            ++ (if next.isLongOrDouble then
                  [ConstantPoolPhysicalEntry.Entry next, .MultiByteEntryTombstone]
                else [ConstantPoolPhysicalEntry.Entry next]) := by
      rw [ConstantPool.add_entries, h1]; split <;> rfl
    refine ⟨by rw [h1]; simp, ?_, ?_, ?_⟩
    · rw [ConstantPool.get_ok_iff, h1]
      refine ⟨by omega, ?_⟩
      rw [show pool.entries.length + 1 - 1 = pool.entries.length by omega]
      rw [List.getElem?_append_right (by omega)]
      simp
    · apply ConstantPool.get_error_of_not_ok
      rintro ⟨e, he⟩
      rw [ConstantPool.get_ok_iff, h2] at he
      obtain ⟨_, he2⟩ := he
      rw [show pool.entries.length + 2 - 1 = pool.entries.length + 1 by omega] at he2
      rw [List.append_assoc, List.getElem?_append_right (by omega)] at he2
      rw [show pool.entries.length + 1 - pool.entries.length = 1 by omega] at he2
      simp at he2
    · rw [ConstantPool.get_ok_iff, h2]
      refine ⟨by omega, ?_⟩
      rw [show pool.entries.length + 3 - 1 = pool.entries.length + 2 by omega]
      rw [List.getElem?_append_right (by simp)]
      simp
      split <;> simp
  · intro hld
    have h1 : (pool.add entry).entries = pool.entries ++ [.Entry entry] := by
      rw [ConstantPool.add_entries, hld]; rfl
    have h2 : ((pool.add entry).add next).entries
        = (pool.entries ++ [.Entry entry])
            ++ (if next.isLongOrDouble then
                  [ConstantPoolPhysicalEntry.Entry next, .MultiByteEntryTombstone]
                else [ConstantPoolPhysicalEntry.Entry next]) := by
      rw [ConstantPool.add_entries, h1]; split <;> rfl
    refine ⟨by rw [h1]; simp, ?_, ?_⟩
    · rw [ConstantPool.get_ok_iff, h1]
      refine ⟨by omega, ?_⟩
      rw [show pool.entries.length + 1 - 1 = pool.entries.length by omega]
      rw [List.getElem?_append_right (by omega)]
      simp
    · rw [ConstantPool.get_ok_iff, h2]
      refine ⟨by omega, ?_⟩
      rw [show pool.entries.length + 2 - 1 = pool.entries.length + 1 by omega]
      rw [List.getElem?_append_right (by simp)]
      simp
      split <;> simp

/-- C3 witness: a concrete Long followed by an Integer shows the tombstone
slot and the round trip of the index arithmetic. -/
theorem c3_add_slot_widths_witness :
    (ConstantPool.new.add (.Long 123)).entries.length = 2
    ∧ ((ConstantPool.new.add (.Long 123)).add (.Integer 7)).get 2 = .error ⟨2⟩
    ∧ ((ConstantPool.new.add (.Long 123)).add (.Integer 7)).get 3 = .ok (.Integer 7) := by
  obtain ⟨h1, _, h3, h4⟩ :=
    (c3_add_slot_widths ConstantPool.new (.Long 123) (.Integer 7)).1 (by decide)
  exact ⟨h1, h3, h4⟩

/-- C4: `get i` succeeds exactly when slot `i` is live (1-based index in
range and not a tombstone); in every other case, index 0 and beyond the
slot count included, it fails with the invalid-index error carrying `i`,
the same error form for a tombstone as for an out-of-range index; and
`get 0` always fails. -/
theorem c4_get_contract (pool : ConstantPool) (i : Nat) :
    ((∃ e, pool.get i = .ok e) ↔ pool.liveSlot i = true)
    ∧ (pool.liveSlot i = false → pool.get i = .error ⟨i⟩)
    ∧ pool.get 0 = .error ⟨0⟩ := by
  have hiff : (∃ e, pool.get i = .ok e) ↔ pool.liveSlot i = true := by
    constructor
    · rintro ⟨e, he⟩
      have hb := ConstantPool.get_ok_bounds he
      rw [ConstantPool.get_ok_iff] at he
      unfold ConstantPool.liveSlot
      rw [he.2]
      simp
      omega
    · intro hl
      unfold ConstantPool.liveSlot at hl
      simp only [Bool.and_eq_true, decide_eq_true_eq] at hl
      obtain ⟨⟨h1, h2⟩, h3⟩ := hl
      cases hE : pool.entries[i - 1]? with
      | none => rw [hE] at h3; cases h3
      | some p =>
        cases p with
        | Entry e => exact ⟨e, (ConstantPool.get_ok_iff pool i e).mpr ⟨h1, hE⟩⟩
        | MultiByteEntryTombstone => rw [hE] at h3; cases h3
  refine ⟨hiff, ?_, ?_⟩
  · intro hfalse
    apply ConstantPool.get_error_of_not_ok
    intro hex
    rw [hiff] at hex
    rw [hex] at hfalse
    cases hfalse
  · unfold ConstantPool.get
    rw [dif_pos (Or.inl rfl)]

/-- C4 witness: on a concrete pool holding one Long, slot 2 is the
tombstone, so it is not live and `get 2` fails; `get 0` fails as well. -/
theorem c4_get_contract_witness :
    (ConstantPool.new.add (.Long 5)).get 2 = .error ⟨2⟩
    ∧ (ConstantPool.new.add (.Long 5)).get 0 = .error ⟨0⟩ :=
  ⟨(c4_get_contract (ConstantPool.new.add (.Long 5)) 2).2.1 (by decide),
   (c4_get_contract (ConstantPool.new.add (.Long 5)) 0).2.2⟩

/-- C8: `method_handle_kind` maps the nine standard kind bytes to their
canonical names and rejects every other value with an error carrying that
byte. -/
theorem c8_method_handle_kind (pool : ConstantPool) (kind : Nat) :
    pool.method_handle_kind 1 = .ok "getField"
    ∧ pool.method_handle_kind 2 = .ok "getStatic"
    ∧ pool.method_handle_kind 3 = .ok "putField"
    ∧ pool.method_handle_kind 4 = .ok "putStatic"
    ∧ pool.method_handle_kind 5 = .ok "invokeVirtual"
    ∧ pool.method_handle_kind 6 = .ok "invokeStatic"
    ∧ pool.method_handle_kind 7 = .ok "invokeSpecial"
    ∧ pool.method_handle_kind 8 = .ok "newInvokeSpecial"
    ∧ pool.method_handle_kind 9 = .ok "invokeInterface"
    ∧ (¬ (1 ≤ kind ∧ kind ≤ 9) → pool.method_handle_kind kind = .error ⟨kind⟩) := by
  refine ⟨rfl, rfl, rfl, rfl, rfl, rfl, rfl, rfl, rfl, ?_⟩
  intro h
  have hcases : kind = 0 ∨ ∃ k, kind = k + 10 := by
    rcases Nat.lt_or_ge kind 10 with h10 | h10
    · left; omega
    · right; exact ⟨kind - 10, by omega⟩
  rcases hcases with rfl | ⟨k, rfl⟩
  · rfl
  · rfl

/-- C8 witness: kind byte 10 is outside the nine standard kinds and is
rejected with an error carrying 10. -/
theorem c8_method_handle_kind_witness :
    ConstantPool.new.method_handle_kind 10 = .error ⟨10⟩ :=
  (c8_method_handle_kind ConstantPool.new 10).2.2.2.2.2.2.2.2.2 (by omega)

/-- C10: on every pool reachable by a sequence of `add` calls, `get` is
total: for every index it returns either a live entry or the
invalid-index error carrying that index; the bounds check in the source
precedes the slot access, which the embedding mirrors by deriving the
in-bounds proof from the guard before indexing. -/
theorem c10_get_total (ops : List ConstantPoolEntry) (i : Nat) :
    (∃ e, (ops.foldl ConstantPool.add ConstantPool.new).get i = .ok e)
    ∨ (ops.foldl ConstantPool.add ConstantPool.new).get i = .error ⟨i⟩ :=
  ConstantPool.get_ok_or_error _ i

/-- C9 counterexample: in the pool built by exactly those four adds the
Long occupies slots 3 and 4, so slot 5 holds the ClassReference entry:
`get 5` succeeds with it (the claim says it must fail) and `get 6` is out
of range (the claim says it must return the ClassReference). -/
theorem c9_scenario_counterexample :
    scenarioPool.get 5 = .ok (.ClassReference 1)
    ∧ scenarioPool.get 6 = .error ⟨6⟩ := by
  constructor <;> rfl

/-- C9 amended: for the pool built by adding Utf8 "hey", Integer 1,
Long 123, ClassReference 1 in order, the Long occupies slots 3 and
4 (tombstone): `get 4` fails with the invalid-index error, `get 5`
returns the ClassReference entry, and `text_of 5` resolves through it to
"hey". -/
theorem c9_scenario (fmt : FloatFmt) :
    scenarioPool.entries.length = 5
    ∧ scenarioPool.get 4 = .error ⟨4⟩
    ∧ scenarioPool.get 5 = .ok (.ClassReference 1)
    ∧ scenarioPool.text_of fmt 5 = .ok "hey" := by
  refine ⟨rfl, rfl, rfl, rfl⟩

/-- C7: resolution rules of `text_of`. A Utf8 entry returns exactly its
stored string; Integer and Long render their decimal text and Float and
Double their canonical float text (the renderer parameter); the five
single-index kinds dereference one level and return the inner text, shown
composed through a Utf8 target; the three member references render as
owner.member, the three name-and-type shaped kinds as name: descriptor,
and MethodHandle as kindName(targetText). -/
theorem c7_text_of_rules (pool : ConstantPool) (fmt : FloatFmt) (i : Nat) :
    (∀ s, pool.get i = .ok (.Utf8 s) → pool.text_of fmt i = .ok s)
    ∧ (∀ n, pool.get i = .ok (.Integer n) → pool.text_of fmt i = .ok (toString n))
    ∧ (∀ b, pool.get i = .ok (.Float b) → pool.text_of fmt i = .ok (fmt.f32Text b))
    ∧ (∀ n, pool.get i = .ok (.Long n) → pool.text_of fmt i = .ok (toString n))
    ∧ (∀ b, pool.get i = .ok (.Double b) → pool.text_of fmt i = .ok (fmt.f64Text b))
    ∧ (∀ j s, pool.get i = .ok (.ClassReference j) →
        pool.get j = .ok (.Utf8 s) → pool.text_of fmt i = .ok s)
    ∧ (∀ j s, pool.get i = .ok (.StringReference j) →
        pool.get j = .ok (.Utf8 s) → pool.text_of fmt i = .ok s)
    ∧ (∀ j s, pool.get i = .ok (.MethodType j) →
        pool.get j = .ok (.Utf8 s) → pool.text_of fmt i = .ok s)
    ∧ (∀ j s, pool.get i = .ok (.ModuleInfo j) →
        pool.get j = .ok (.Utf8 s) → pool.text_of fmt i = .ok s)
    ∧ (∀ j s, pool.get i = .ok (.PackageInfo j) →
        pool.get j = .ok (.Utf8 s) → pool.text_of fmt i = .ok s)
    ∧ (∀ a b sa sb, pool.get i = .ok (.FieldReference a b) →
        pool.get a = .ok (.Utf8 sa) → pool.get b = .ok (.Utf8 sb) →
        pool.text_of fmt i = .ok (sa ++ "." ++ sb))
    ∧ (∀ a b sa sb, pool.get i = .ok (.MethodReference a b) →
        pool.get a = .ok (.Utf8 sa) → pool.get b = .ok (.Utf8 sb) →
        pool.text_of fmt i = .ok (sa ++ "." ++ sb))
    ∧ (∀ a b sa sb, pool.get i = .ok (.InterfaceMethodReference a b) →
        pool.get a = .ok (.Utf8 sa) → pool.get b = .ok (.Utf8 sb) →
        pool.text_of fmt i = .ok (sa ++ "." ++ sb))
    ∧ (∀ a b sa sb, pool.get i = .ok (.NameAndTypeDescriptor a b) →
        pool.get a = .ok (.Utf8 sa) → pool.get b = .ok (.Utf8 sb) →
        pool.text_of fmt i = .ok (sa ++ ": " ++ sb))
    ∧ (∀ a b sa sb, pool.get i = .ok (.DynamicInfo a b) →
        pool.get a = .ok (.Utf8 sa) → pool.get b = .ok (.Utf8 sb) →
        pool.text_of fmt i = .ok (sa ++ ": " ++ sb))
    ∧ (∀ a b sa sb, pool.get i = .ok (.InvokeDynamicInfo a b) →
        pool.get a = .ok (.Utf8 sa) → pool.get b = .ok (.Utf8 sb) →
        pool.text_of fmt i = .ok (sa ++ ": " ++ sb))
    ∧ (∀ k j ks t, pool.get i = .ok (.MethodHandle k j) →
        pool.method_handle_kind k = .ok ks → pool.get j = .ok (.Utf8 t) →
        pool.text_of fmt i = .ok (ks ++ "(" ++ t ++ ")")) := by
  refine ⟨?_, ?_, ?_, ?_, ?_, ?_, ?_, ?_, ?_, ?_, ?_, ?_, ?_, ?_, ?_, ?_, ?_⟩
  · intro s h1
    simp [ConstantPool.text_of, ConstantPool.textOfFuel, h1]
  · intro n h1
    simp [ConstantPool.text_of, ConstantPool.textOfFuel, h1]
  · intro b h1
    simp [ConstantPool.text_of, ConstantPool.textOfFuel, h1]
  · intro n h1
    simp [ConstantPool.text_of, ConstantPool.textOfFuel, h1]
  · intro b h1
    simp [ConstantPool.text_of, ConstantPool.textOfFuel, h1]
  · intro j s h1 h2
    have hb := ConstantPool.get_ok_bounds h1
    obtain ⟨m, hm⟩ : ∃ m, pool.entries.length = m + 1 :=
      ⟨pool.entries.length - 1, by omega⟩
    simp [ConstantPool.text_of, hm, ConstantPool.textOfFuel, h1, h2]
  · intro j s h1 h2
    have hb := ConstantPool.get_ok_bounds h1
    obtain ⟨m, hm⟩ : ∃ m, pool.entries.length = m + 1 :=
      ⟨pool.entries.length - 1, by omega⟩
    simp [ConstantPool.text_of, hm, ConstantPool.textOfFuel, h1, h2]
  · intro j s h1 h2
    have hb := ConstantPool.get_ok_bounds h1
    obtain ⟨m, hm⟩ : ∃ m, pool.entries.length = m + 1 :=
      ⟨pool.entries.length - 1, by omega⟩
    simp [ConstantPool.text_of, hm, ConstantPool.textOfFuel, h1, h2]
  · intro j s h1 h2
    have hb := ConstantPool.get_ok_bounds h1
    obtain ⟨m, hm⟩ : ∃ m, pool.entries.length = m + 1 :=
      ⟨pool.entries.length - 1, by omega⟩
    simp [ConstantPool.text_of, hm, ConstantPool.textOfFuel, h1, h2]
  · intro j s h1 h2
    have hb := ConstantPool.get_ok_bounds h1
    obtain ⟨m, hm⟩ : ∃ m, pool.entries.length = m + 1 :=
      ⟨pool.entries.length - 1, by omega⟩
    simp [ConstantPool.text_of, hm, ConstantPool.textOfFuel, h1, h2]
  · intro a b sa sb h1 h2 h3
    have hb := ConstantPool.get_ok_bounds h1
    obtain ⟨m, hm⟩ : ∃ m, pool.entries.length = m + 1 :=
      ⟨pool.entries.length - 1, by omega⟩
    simp [ConstantPool.text_of, hm, ConstantPool.textOfFuel, h1, h2, h3]
  · intro a b sa sb h1 h2 h3
    have hb := ConstantPool.get_ok_bounds h1
    obtain ⟨m, hm⟩ : ∃ m, pool.entries.length = m + 1 :=
      ⟨pool.entries.length - 1, by omega⟩
    simp [ConstantPool.text_of, hm, ConstantPool.textOfFuel, h1, h2, h3]
  · intro a b sa sb h1 h2 h3
    have hb := ConstantPool.get_ok_bounds h1
    obtain ⟨m, hm⟩ : ∃ m, pool.entries.length = m + 1 :=
      ⟨pool.entries.length - 1, by omega⟩
    simp [ConstantPool.text_of, hm, ConstantPool.textOfFuel, h1, h2, h3]
  · intro a b sa sb h1 h2 h3
    have hb := ConstantPool.get_ok_bounds h1
    obtain ⟨m, hm⟩ : ∃ m, pool.entries.length = m + 1 :=
      ⟨pool.entries.length - 1, by omega⟩
    simp [ConstantPool.text_of, hm, ConstantPool.textOfFuel, h1, h2, h3]
  · intro a b sa sb h1 h2 h3
    have hb := ConstantPool.get_ok_bounds h1
    obtain ⟨m, hm⟩ : ∃ m, pool.entries.length = m + 1 :=
      ⟨pool.entries.length - 1, by omega⟩
    simp [ConstantPool.text_of, hm, ConstantPool.textOfFuel, h1, h2, h3]
  · intro a b sa sb h1 h2 h3
    have hb := ConstantPool.get_ok_bounds h1
    obtain ⟨m, hm⟩ : ∃ m, pool.entries.length = m + 1 :=
      ⟨pool.entries.length - 1, by omega⟩
    simp [ConstantPool.text_of, hm, ConstantPool.textOfFuel, h1, h2, h3]
  · intro k j ks t h1 hk h2
    have hb := ConstantPool.get_ok_bounds h1
    obtain ⟨m, hm⟩ : ∃ m, pool.entries.length = m + 1 :=
      ⟨pool.entries.length - 1, by omega⟩
    simp [ConstantPool.text_of, hm, ConstantPool.textOfFuel, h1, hk, h2]

/-- C7 witness: on the concrete pool, the Utf8 rule gives idempotent text
and the FieldReference rule gives owner.member. -/
theorem c7_text_of_rules_witness :
    c7Pool.text_of fmt0 1 = .ok "hey"
    ∧ c7Pool.text_of fmt0 3 = .ok "hey.joe" :=
  ⟨(c7_text_of_rules c7Pool fmt0 1).1 "hey" rfl,
   (c7_text_of_rules c7Pool fmt0 3).2.2.2.2.2.2.2.2.2.2.1 1 2 "hey" "joe" rfl rfl rfl⟩

/-- C2: for kinds 6 and 7 the resolver is a version-gated branch: below
major version 52 it succeeds exactly on a MethodReference entry; from 52
onward exactly on a MethodReference or an InterfaceMethodReference entry,
yielding the corresponding handle kind; failures are the validation
error; and an InterfaceMethodReference entry resolves successfully
exactly when the major version is at least 52. -/
theorem c2_resolve_version_gate (v : ClassFileVersion) (pool : ConstantPool)
    (idx : Nat) (entry : ConstantPoolEntry) (hget : pool.get idx = .ok entry)
    (k : Nat) (hk : k = 6 ∨ k = 7) :
    (v.major_version < 52 →
      ((∃ h, MethodHandle.resolve v pool k idx = .ok h)
        ↔ ∃ i j, entry = .MethodReference i j))
    ∧ (52 ≤ v.major_version →
      ((∃ h, MethodHandle.resolve v pool k idx = .ok h)
        ↔ ((∃ i j, entry = .MethodReference i j)
            ∨ (∃ i j, entry = .InterfaceMethodReference i j))))
    ∧ (∀ i j, entry = .MethodReference i j →
        MethodHandle.resolve v pool k idx = .ok (.MethodRef i j))
    ∧ (∀ i j, entry = .InterfaceMethodReference i j →
        MethodHandle.resolve v pool k idx =
          if 52 ≤ v.major_version then .ok (.InterfaceMethodRef i j)
          else .error .ValidationException)
    ∧ ((∃ h, MethodHandle.resolve v pool k idx = .ok h)
        ∨ MethodHandle.resolve v pool k idx = .error .ValidationException) := by
  have hres : MethodHandle.resolve v pool k idx = resolveKind67 v entry := by
    rcases hk with rfl | rfl <;>
      (unfold MethodHandle.resolve
       split
       · rename_i a heq
         rw [hget] at heq
         cases heq
       · rename_i e2 heq
         rw [hget] at heq
         injection heq with h2
         subst h2
         cases entry <;> simp [resolveKind67])
  refine ⟨?_, ?_, ?_, ?_, ?_⟩
  · intro hv
    rw [hres]
    unfold resolveKind67
    rw [if_pos hv]
    cases entry <;> simp
  · intro hv
    rw [hres]
    unfold resolveKind67
    rw [if_neg (by omega)]
    cases entry <;> simp
  · intro i j he
    subst he
    rw [hres]
    unfold resolveKind67
    split <;> rfl
  · intro i j he
    subst he
    rw [hres]
    unfold resolveKind67
    rcases Nat.lt_or_ge v.major_version 52 with hv | hv
    · rw [if_pos hv, if_neg (by omega)]
    · rw [if_neg (by omega), if_pos (by omega)]
  · rw [hres]
    unfold resolveKind67
    split <;> (cases entry <;> simp)

/-- C2 witness: kind 6 with an InterfaceMethodReference entry succeeds at
major version 52 and fails at major version 51, all else equal. -/
theorem c2_resolve_version_gate_witness :
    MethodHandle.resolve ⟨52, 0⟩ c2Pool 6 1 = .ok (.InterfaceMethodRef 1 2)
    ∧ MethodHandle.resolve ⟨51, 0⟩ c2Pool 6 1 = .error .ValidationException := by
  constructor
  · have h := (c2_resolve_version_gate ⟨52, 0⟩ c2Pool 1 (.InterfaceMethodReference 1 2)
      rfl 6 (Or.inl rfl)).2.2.2.1 1 2 rfl
    simpa using h
  · have h := (c2_resolve_version_gate ⟨51, 0⟩ c2Pool 1 (.InterfaceMethodReference 1 2)
      rfl 6 (Or.inl rfl)).2.2.2.1 1 2 rfl
    simpa using h

theorem tag_width_pos (tag : Nat) : 1 ≤ tag_width tag := by
  unfold tag_width
  split <;> omega

theorem read_constants_go_fuel_irrel (constants_count : Nat) :
    ∀ (f f' i : Nat) (buffer : Buffer) (constants : ConstantPool),
      constants_count - i ≤ f → constants_count - i ≤ f' →
      read_constants_go constants_count f buffer constants i
        = read_constants_go constants_count f' buffer constants i := by
  intro f
  induction f with
  | zero =>
    intro f' i buffer constants hf hf'
    have hnot : ¬ i < constants_count := by omega
    cases f' with
    | zero => rfl
    | succ f' =>
      simp only [read_constants_go]
      rw [if_neg hnot]
  | succ f ih =>
    intro f' i buffer constants hf hf'
    cases f' with
    | zero =>
      have hnot : ¬ i < constants_count := by omega
      simp only [read_constants_go]
      rw [if_neg hnot]
    | succ f' =>
      simp only [read_constants_go]
      by_cases hi : i < constants_count
      · rw [if_pos hi, if_pos hi]
        cases hread : buffer.read_u8 with
        | error e => rfl
        | ok p =>
          obtain ⟨tag, b1⟩ := p
          show (match read_constant_dispatch tag b1 with
                | Except.error e => Except.error e
                | Except.ok (constant, b2) =>
                  read_constants_go constants_count f b2 (constants.add constant)
                    (i + tag_width tag))
              = (match read_constant_dispatch tag b1 with
                | Except.error e => Except.error e
                | Except.ok (constant, b2) =>
                  read_constants_go constants_count f' b2 (constants.add constant)
                    (i + tag_width tag))
          cases hdisp : read_constant_dispatch tag b1 with
          | error e => rfl
          | ok q =>
            obtain ⟨constant, b2⟩ := q
            have hw := tag_width_pos tag
            exact ih f' (i + tag_width tag) b2 (constants.add constant)
              (by omega) (by omega)
      · rw [if_neg hi, if_neg hi]

/-- One iteration of the loop, expressed on the wrapper: when the counter
is below the count and a tag byte is available, the loop dispatches on the
tag and continues at the advanced counter. -/
theorem read_constants_loop_step (buffer b1 : Buffer) (constants : ConstantPool)
    (i constants_count tag : Nat) (hi : i < constants_count)
    (hb : buffer.read_u8 = .ok (tag, b1)) :
    read_constants_loop buffer constants i constants_count
      = match read_constant_dispatch tag b1 with
        | .error e => .error e
        | .ok (constant, b2) =>
          read_constants_loop b2 (constants.add constant) (i + tag_width tag)
            constants_count := by
  unfold read_constants_loop
  obtain ⟨m, hm⟩ : ∃ m, constants_count - i = m + 1 :=
    ⟨constants_count - i - 1, by omega⟩
  rw [hm]
  simp only [read_constants_go]
  rw [if_pos hi, hb]
  show (match read_constant_dispatch tag b1 with
        | Except.error e => Except.error e
        | Except.ok (constant, b2) =>
          read_constants_go constants_count m b2 (constants.add constant)
            (i + tag_width tag)) = _
  cases hdisp : read_constant_dispatch tag b1 with
  | error e => rfl
  | ok q =>
    obtain ⟨constant, b2⟩ := q
    have hw := tag_width_pos tag
    exact read_constants_go_fuel_irrel constants_count m
      (constants_count - (i + tag_width tag)) (i + tag_width tag) b2
      (constants.add constant) (by omega) (by omega)

/-- C1 counterexample: a constant pool declaring one entry whose tag byte
is 15 (MethodHandle in the claimed extended tag set, with a plausible
kind-and-index payload following) is rejected by the dispatch loop with
the unknown-tag error instead of producing a MethodHandle entry; the same
happens for every tag of the claimed extended set. -/
theorem c1_extended_tags_counterexample :
    read_constants (Buffer.new [0, 2, 15, 1, 0, 1]) ConstantPool.new
      = .error (.InvalidClassData "Unknown constant type: 0xF" none) := by
  rfl

/-- C1 amended: the constant-pool loop dispatches on the tag byte for the
eleven recognized tags 1, 3, 4, 5, 6, 7, 8, 9, 10, 11, 12, producing the
corresponding pool entry from the fixed-shape payload reads (tags 5 and 6
advance the logical counter by two); every other tag, the extended set
15 to 20 included, fails with the InvalidClassData error naming the
offending tag. -/
theorem c1_tag_dispatch (buffer b1 : Buffer) (constants : ConstantPool)
    (i constants_count tag : Nat)
    (hi : i < constants_count) (hb : buffer.read_u8 = .ok (tag, b1)) :
    (tag = 1 → ∀ len b2 s b3, b1.read_u16 = .ok (len, b2) →
      b2.read_utf8 len = .ok (s, b3) →
      read_constants_loop buffer constants i constants_count
        = read_constants_loop b3 (constants.add (.Utf8 s)) (i + 1) constants_count)
    ∧ (tag = 3 → ∀ n b2, b1.read_i32 = .ok (n, b2) →
      read_constants_loop buffer constants i constants_count
        = read_constants_loop b2 (constants.add (.Integer n)) (i + 1) constants_count)
    ∧ (tag = 4 → ∀ bits b2, b1.read_f32 = .ok (bits, b2) →
      read_constants_loop buffer constants i constants_count
        = read_constants_loop b2 (constants.add (.Float bits)) (i + 1) constants_count)
    ∧ (tag = 5 → ∀ n b2, b1.read_i64 = .ok (n, b2) →
      read_constants_loop buffer constants i constants_count
        = read_constants_loop b2 (constants.add (.Long n)) (i + 2) constants_count)
    ∧ (tag = 6 → ∀ bits b2, b1.read_f64 = .ok (bits, b2) →
      read_constants_loop buffer constants i constants_count
        = read_constants_loop b2 (constants.add (.Double bits)) (i + 2) constants_count)
    ∧ (tag = 7 → ∀ idx b2, b1.read_u16 = .ok (idx, b2) →
      read_constants_loop buffer constants i constants_count
        = read_constants_loop b2 (constants.add (.ClassReference idx)) (i + 1)
            constants_count)
    ∧ (tag = 8 → ∀ idx b2, b1.read_u16 = .ok (idx, b2) →
      read_constants_loop buffer constants i constants_count
        = read_constants_loop b2 (constants.add (.StringReference idx)) (i + 1)
            constants_count)
    ∧ (tag = 9 → ∀ a b2 c b3, b1.read_u16 = .ok (a, b2) → b2.read_u16 = .ok (c, b3) →
      read_constants_loop buffer constants i constants_count
        = read_constants_loop b3 (constants.add (.FieldReference a c)) (i + 1)
            constants_count)
    ∧ (tag = 10 → ∀ a b2 c b3, b1.read_u16 = .ok (a, b2) → b2.read_u16 = .ok (c, b3) →
      read_constants_loop buffer constants i constants_count
        = read_constants_loop b3 (constants.add (.MethodReference a c)) (i + 1)
            constants_count)
    ∧ (tag = 11 → ∀ a b2 c b3, b1.read_u16 = .ok (a, b2) → b2.read_u16 = .ok (c, b3) →
      read_constants_loop buffer constants i constants_count
        = read_constants_loop b3 (constants.add (.InterfaceMethodReference a c)) (i + 1)
            constants_count)
    ∧ (tag = 12 → ∀ a b2 c b3, b1.read_u16 = .ok (a, b2) → b2.read_u16 = .ok (c, b3) →
      read_constants_loop buffer constants i constants_count
        = read_constants_loop b3 (constants.add (.NameAndTypeDescriptor a c)) (i + 1)
            constants_count)
    ∧ (tag ∉ ([1, 3, 4, 5, 6, 7, 8, 9, 10, 11, 12] : List Nat) →
      read_constants_loop buffer constants i constants_count
        = .error (.InvalidClassData ("Unknown constant type: 0x" ++ hexUpper tag)
            none)) := by
  refine ⟨?_, ?_, ?_, ?_, ?_, ?_, ?_, ?_, ?_, ?_, ?_, ?_⟩
  · rintro rfl len b2 s b3 hu hv
    have hd : read_constant_dispatch 1 b1 = read_utf8_constant b1 := rfl
    have hr : read_utf8_constant b1 = .ok (.Utf8 s, b3) := by
      simp only [read_utf8_constant, hu, hv]
    rw [read_constants_loop_step buffer b1 constants i constants_count 1 hi hb, hd, hr]
    rfl
  · rintro rfl n b2 hu
    have hd : read_constant_dispatch 3 b1 = read_int_constant b1 := rfl
    have hr : read_int_constant b1 = .ok (.Integer n, b2) := by
      simp only [read_int_constant, hu]
    rw [read_constants_loop_step buffer b1 constants i constants_count 3 hi hb, hd, hr]
    rfl
  · rintro rfl bits b2 hu
    have hd : read_constant_dispatch 4 b1 = read_float_constant b1 := rfl
    have hr : read_float_constant b1 = .ok (.Float bits, b2) := by
      simp only [read_float_constant, hu]
    rw [read_constants_loop_step buffer b1 constants i constants_count 4 hi hb, hd, hr]
    rfl
  · rintro rfl n b2 hu
    have hd : read_constant_dispatch 5 b1 = read_long_constant b1 := rfl
    have hr : read_long_constant b1 = .ok (.Long n, b2) := by
      simp only [read_long_constant, hu]
    rw [read_constants_loop_step buffer b1 constants i constants_count 5 hi hb, hd, hr]
    rfl
  · rintro rfl bits b2 hu
    have hd : read_constant_dispatch 6 b1 = read_double_constant b1 := rfl
    have hr : read_double_constant b1 = .ok (.Double bits, b2) := by
      simp only [read_double_constant, hu]
    rw [read_constants_loop_step buffer b1 constants i constants_count 6 hi hb, hd, hr]
    rfl
  · rintro rfl idx b2 hu
    have hd : read_constant_dispatch 7 b1 = read_class_reference_constant b1 := rfl
    have hr : read_class_reference_constant b1 = .ok (.ClassReference idx, b2) := by
      simp only [read_class_reference_constant, hu]
    rw [read_constants_loop_step buffer b1 constants i constants_count 7 hi hb, hd, hr]
    rfl
  · rintro rfl idx b2 hu
    have hd : read_constant_dispatch 8 b1 = read_string_reference_constant b1 := rfl
    have hr : read_string_reference_constant b1 = .ok (.StringReference idx, b2) := by
      simp only [read_string_reference_constant, hu]
    rw [read_constants_loop_step buffer b1 constants i constants_count 8 hi hb, hd, hr]
    rfl
  · rintro rfl a b2 c b3 hu hv
    have hd : read_constant_dispatch 9 b1 = read_field_reference_constant b1 := rfl
    have hr : read_field_reference_constant b1 = .ok (.FieldReference a c, b3) := by
      simp only [read_field_reference_constant, hu, hv]
    rw [read_constants_loop_step buffer b1 constants i constants_count 9 hi hb, hd, hr]
    rfl
  · rintro rfl a b2 c b3 hu hv
    have hd : read_constant_dispatch 10 b1 = read_method_reference_constant b1 := rfl
    have hr : read_method_reference_constant b1 = .ok (.MethodReference a c, b3) := by
      simp only [read_method_reference_constant, hu, hv]
    rw [read_constants_loop_step buffer b1 constants i constants_count 10 hi hb, hd, hr]
    rfl
  · rintro rfl a b2 c b3 hu hv
    have hd : read_constant_dispatch 11 b1
        = read_interface_method_reference_constant b1 := rfl
    have hr : read_interface_method_reference_constant b1
        = .ok (.InterfaceMethodReference a c, b3) := by
      simp only [read_interface_method_reference_constant, hu, hv]
    rw [read_constants_loop_step buffer b1 constants i constants_count 11 hi hb, hd, hr]
    rfl
  · rintro rfl a b2 c b3 hu hv
    have hd : read_constant_dispatch 12 b1 = read_name_and_type_constant b1 := rfl
    have hr : read_name_and_type_constant b1 = .ok (.NameAndTypeDescriptor a c, b3) := by
      simp only [read_name_and_type_constant, hu, hv]
    rw [read_constants_loop_step buffer b1 constants i constants_count 12 hi hb, hd, hr]
    rfl
  · intro htag
    simp only [List.mem_cons, List.not_mem_nil, or_false, not_or] at htag
    have hcases : tag = 0 ∨ tag = 2 ∨ ∃ k, tag = k + 13 := by
      rcases Nat.lt_or_ge tag 13 with h13 | h13
      · omega
      · right; right; exact ⟨tag - 13, by omega⟩
    have hd : read_constant_dispatch tag b1
        = .error (.InvalidClassData ("Unknown constant type: 0x" ++ hexUpper tag)
            none) := by
      rcases hcases with rfl | rfl | ⟨k, rfl⟩ <;> rfl
    rw [read_constants_loop_step buffer b1 constants i constants_count tag hi hb, hd]

/-- C1 witness: at a concrete buffer holding tag byte 10 with a two-index
payload, the loop consumes a MethodReference entry, and with tag byte 2 it
fails with the unknown-tag error naming 0x2. -/
theorem c1_tag_dispatch_witness :
    read_constants_loop (Buffer.new [10, 0, 1, 0, 2]) ConstantPool.new 0 1
      = read_constants_loop ⟨[10, 0, 1, 0, 2], 5⟩
          (ConstantPool.new.add (.MethodReference 1 2)) 1 1
    ∧ read_constants_loop (Buffer.new [2]) ConstantPool.new 0 1
      = .error (.InvalidClassData "Unknown constant type: 0x2" none) := by
  constructor
  · have h := (c1_tag_dispatch (Buffer.new [10, 0, 1, 0, 2]) ⟨[10, 0, 1, 0, 2], 1⟩
      ConstantPool.new 0 1 10 (by decide) rfl).2.2.2.2.2.2.2.2.1 rfl
      1 ⟨[10, 0, 1, 0, 2], 3⟩ 2 ⟨[10, 0, 1, 0, 2], 5⟩ rfl rfl
    exact h
  · have h := (c1_tag_dispatch (Buffer.new [2]) ⟨[2], 1⟩
      ConstantPool.new 0 1 2 (by decide) rfl).2.2.2.2.2.2.2.2.2.2.2 (by decide)
    exact h

/-- C5 counterexample: at a concrete superclass slot holding index 0 the
parser returns the empty string paired with the advanced cursor. The
result is a plain string, not an absent optional value: this parser has no
None to produce, its superclass field is a string and the integration
tests compare it with string literals directly. -/
theorem c5_superclass_counterexample :
    read_class_reference fmt0 ConstantPool.new (Buffer.new [0, 0])
      = .ok ("", ⟨[0, 0], 2⟩) := by
  rfl

/-- C5 amended: when the u16 superclass index read is 0 the parser
succeeds and stores the empty string (its absent marker; the field is a
plain string, not an optional value), and for any nonzero index the
superclass is the `text_of` resolution of the referenced entry; on a full
minimal class file with superclass slot 0, parsing succeeds with the
superclass equal to the empty string. -/
theorem c5_superclass_index_zero (fmt : FloatFmt) (constants : ConstantPool)
    (buffer b1 : Buffer) (idx : Nat) (hu : buffer.read_u16 = .ok (idx, b1)) :
    (idx = 0 → read_class_reference fmt constants buffer = .ok ("", b1))
    ∧ (∀ s, idx ≠ 0 → constants.text_of fmt idx = .ok s →
        read_class_reference fmt constants buffer = .ok (s, b1))
    ∧ (∃ cf, classFileReaderRead fmt0 vf0 noSuperclassBytes = .ok cf
        ∧ cf.superclass = "" ∧ cf.name = "A") := by
  refine ⟨?_, ?_, ?_⟩
  · rintro rfl
    simp [read_class_reference, hu]
  · intro s hne hs
    have hr : read_string_reference fmt constants idx = .ok s := by
      simp only [read_string_reference, hs]
    simp only [read_class_reference, hu, hr]
    rw [if_neg hne]
  · exact ⟨_, rfl, rfl, rfl⟩

/-- C5 witness: a concrete superclass slot holding index 3 in a pool
where index 3 is a ClassReference to Utf8 "A" resolves to "A", and the
zero slot yields the empty string. -/
theorem c5_superclass_index_zero_witness :
    read_class_reference fmt0 ConstantPool.new (Buffer.new [0, 0])
      = .ok ("", ⟨[0, 0], 2⟩)
    ∧ read_class_reference fmt0
        ((ConstantPool.new.add (.Utf8 "A")).add (.ClassReference 1))
        (Buffer.new [0, 2])
      = .ok ("A", ⟨[0, 2], 2⟩) := by
  constructor
  · exact (c5_superclass_index_zero fmt0 ConstantPool.new (Buffer.new [0, 0])
      ⟨[0, 0], 2⟩ 0 rfl).1 rfl
  · exact (c5_superclass_index_zero fmt0
      ((ConstantPool.new.add (.Utf8 "A")).add (.ClassReference 1))
      (Buffer.new [0, 2]) ⟨[0, 2], 2⟩ 2 rfl).2.1 "A" (by decide) (by rfl)

/-- C6 counterexample: on a concrete input that begins with the magic
number but ends inside the version field, the parser returns
`InvalidClassData "unexpected end of class file"`. The class-reader
failure taxonomy contains no variant named UnexpectedEndOfData: that name
exists only at the buffer-cursor level, and the `From` conversion
collapses it into `InvalidClassData`, so the claimed error value cannot be
returned by the parser. -/
theorem c6_truncated_counterexample :
    classFileReaderRead fmt0 vf0 [0xCA, 0xFE, 0xBA, 0xBE, 0]
      = .error (.InvalidClassData "unexpected end of class file" none) := by
  rfl

theorem Buffer.read_u8_eod {b : Buffer} (h : b.data.length ≤ b.position) :
    b.read_u8 = .error .UnexpectedEndOfData := by
  unfold Buffer.read_u8
  rw [dif_neg (by omega)]

theorem Buffer.read_u8_ok {b : Buffer} (h : b.position < b.data.length) :
    b.read_u8 = .ok (b.data.get ⟨b.position, h⟩, ⟨b.data, b.position + 1⟩) := by
  unfold Buffer.read_u8
  rw [dif_pos h]

theorem Buffer.read_u16_cases (b : Buffer) :
    (b.position + 2 ≤ b.data.length
      ∧ ∃ v, b.read_u16 = .ok (v, ⟨b.data, b.position + 2⟩))
    ∨ b.read_u16 = .error .UnexpectedEndOfData := by
  by_cases h2 : b.position + 2 ≤ b.data.length
  · left
    refine ⟨h2, ?_⟩
    have h1 : b.position < b.data.length := by omega
    have h1b : (⟨b.data, b.position + 1⟩ : Buffer).read_u8
        = .ok (b.data.get ⟨b.position + 1, by omega⟩, ⟨b.data, b.position + 1 + 1⟩) :=
      Buffer.read_u8_ok (by dsimp only; omega)
    refine ⟨b.data.get ⟨b.position, h1⟩ * 256 + b.data.get ⟨b.position + 1, by omega⟩, ?_⟩
    simp only [Buffer.read_u16, Buffer.read_u8_ok h1, h1b]
  · right
    by_cases h1 : b.position < b.data.length
    · have h1b : (⟨b.data, b.position + 1⟩ : Buffer).read_u8
          = .error .UnexpectedEndOfData :=
        Buffer.read_u8_eod (by dsimp only; omega)
      simp only [Buffer.read_u16, Buffer.read_u8_ok h1, h1b]
    · simp only [Buffer.read_u16, Buffer.read_u8_eod (by omega : b.data.length ≤ b.position)]

theorem Buffer.read_u16_eod {b : Buffer} (h : b.data.length < b.position + 2) :
    b.read_u16 = .error .UnexpectedEndOfData := by
  rcases Buffer.read_u16_cases b with ⟨hle, _⟩ | herr
  · omega
  · exact herr

theorem Buffer.read_u32_eod {b : Buffer} (h : b.data.length < b.position + 4) :
    b.read_u32 = .error .UnexpectedEndOfData := by
  rcases Buffer.read_u16_cases b with ⟨hle, v, hok⟩ | herr
  · have h2 : (⟨b.data, b.position + 2⟩ : Buffer).read_u16
        = .error .UnexpectedEndOfData :=
      Buffer.read_u16_eod (by dsimp only; omega)
    simp only [Buffer.read_u32, hok, h2]
  · simp only [Buffer.read_u32, herr]

theorem read_version_eod
    (versionFrom : Nat → Nat → Except ClassReaderError ClassFileVersion)
    {b : Buffer} (h : b.data.length < b.position + 4) :
    read_version versionFrom b
      = .error (ClassReaderError.invalid_class_data "unexpected end of class file") := by
  rcases Buffer.read_u16_cases b with ⟨hle, v, hok⟩ | herr
  · have h2 : (⟨b.data, b.position + 2⟩ : Buffer).read_u16
        = .error .UnexpectedEndOfData :=
      Buffer.read_u16_eod (by dsimp only; omega)
    simp only [read_version, hok, h2]
    rfl
  · simp only [read_version, herr]
    rfl

theorem check_magic_ok (rest : List Nat) :
    check_magic_number (Buffer.new ([0xCA, 0xFE, 0xBA, 0xBE] ++ rest))
      = .ok ⟨[0xCA, 0xFE, 0xBA, 0xBE] ++ rest, 4⟩ := by
  have g0 : (Buffer.new ([0xCA, 0xFE, 0xBA, 0xBE] ++ rest)).read_u8
      = .ok (0xCA, ⟨[0xCA, 0xFE, 0xBA, 0xBE] ++ rest, 1⟩) := by
    rw [Buffer.read_u8_ok (by simp [Buffer.new])]
    rfl
  have g1 : (⟨[0xCA, 0xFE, 0xBA, 0xBE] ++ rest, 1⟩ : Buffer).read_u8
      = .ok (0xFE, ⟨[0xCA, 0xFE, 0xBA, 0xBE] ++ rest, 2⟩) := by
    rw [Buffer.read_u8_ok (by simp)]
    rfl
  have g2 : (⟨[0xCA, 0xFE, 0xBA, 0xBE] ++ rest, 2⟩ : Buffer).read_u8
      = .ok (0xBA, ⟨[0xCA, 0xFE, 0xBA, 0xBE] ++ rest, 3⟩) := by
    rw [Buffer.read_u8_ok (by simp)]
    rfl
  have g3 : (⟨[0xCA, 0xFE, 0xBA, 0xBE] ++ rest, 3⟩ : Buffer).read_u8
      = .ok (0xBE, ⟨[0xCA, 0xFE, 0xBA, 0xBE] ++ rest, 4⟩) := by
    rw [Buffer.read_u8_ok (by simp)]
    rfl
  have h16a : (Buffer.new ([0xCA, 0xFE, 0xBA, 0xBE] ++ rest)).read_u16
      = .ok (0xCAFE, ⟨[0xCA, 0xFE, 0xBA, 0xBE] ++ rest, 2⟩) := by
    simp only [Buffer.read_u16, g0, g1]
  have h16b : (⟨[0xCA, 0xFE, 0xBA, 0xBE] ++ rest, 2⟩ : Buffer).read_u16
      = .ok (0xBABE, ⟨[0xCA, 0xFE, 0xBA, 0xBE] ++ rest, 4⟩) := by
    simp only [Buffer.read_u16, g2, g3]
  have h32 : (Buffer.new ([0xCA, 0xFE, 0xBA, 0xBE] ++ rest)).read_u32
      = .ok (0xCAFEBABE, ⟨[0xCA, 0xFE, 0xBA, 0xBE] ++ rest, 4⟩) := by
    simp only [Buffer.read_u32, h16a, h16b]
  simp only [check_magic_number, h32]
  rfl

/-- C6 amended: every input beginning with the magic number but shorter
than 8 bytes in total, and every input shorter than the 4 magic bytes,
makes the parse fail with `InvalidClassData "unexpected end of class
file"`: the image under the error conversion of the cursor-level
end-of-data failure. The parse is a total function, so no input can make
it do anything but return a value. -/
theorem c6_truncated_input (fmt : FloatFmt)
    (versionFrom : Nat → Nat → Except ClassReaderError ClassFileVersion) :
    (∀ rest : List Nat, rest.length < 4 →
      classFileReaderRead fmt versionFrom ([0xCA, 0xFE, 0xBA, 0xBE] ++ rest)
        = .error (ClassReaderError.invalid_class_data "unexpected end of class file"))
    ∧ (∀ data : List Nat, data.length < 4 →
      classFileReaderRead fmt versionFrom data
        = .error (ClassReaderError.invalid_class_data
            "unexpected end of class file")) := by
  constructor
  · intro rest hlen
    have hv : read_version versionFrom ⟨[0xCA, 0xFE, 0xBA, 0xBE] ++ rest, 4⟩
        = .error (ClassReaderError.invalid_class_data
            "unexpected end of class file") :=
      read_version_eod versionFrom (by simp; omega)
    simp only [classFileReaderRead, check_magic_ok rest, hv]
  · intro data hlen
    have hm : (Buffer.new data).read_u32 = .error .UnexpectedEndOfData :=
      Buffer.read_u32_eod (by simpa using hlen)
    simp only [classFileReaderRead, check_magic_number, hm]
    rfl

/-- C6 witness: a magic number followed by two stray bytes fails with the
converted end-of-data error, and so does a single stray byte. -/
theorem c6_truncated_input_witness :
    classFileReaderRead fmt0 vf0 [0xCA, 0xFE, 0xBA, 0xBE, 0, 52]
      = .error (ClassReaderError.invalid_class_data "unexpected end of class file")
    ∧ classFileReaderRead fmt0 vf0 [7]
      = .error (ClassReaderError.invalid_class_data
          "unexpected end of class file") :=
  ⟨(c6_truncated_input fmt0 vf0).1 [0, 52] (by decide),
   (c6_truncated_input fmt0 vf0).2 [7] (by decide)⟩


end RJVM
